import Mathlib

/-!
Verification of the outray-ts tunnel client (src/client.ts, src/types.ts).

The client maintains one WebSocket control channel to a relay and
multiplexes HTTP request/response pairs, TCP byte streams, and UDP
datagram exchanges over it.  This development is a shallow embedding of
the client's session logic:

* outbound frames and the channel-state guards on sending them,
* `handleMessage`, the per-frame dispatcher of the control channel,
* `handleRequest` / `proxyHTTP` / `sendResponse`, the HTTP bridge,
* `handleUDPData`, the UDP bridge, as an event step function,
* `connectOnce`, the single-attempt lifecycle promise, as an event
  step function on WebSocket events,
* the reconnect loop's backoff arithmetic from `connect`,
* `close` and the safe-callback wrappers.

Asynchronous behaviour (socket events, promise settlement) is modelled
by explicit event traces; a user callback that may throw is modelled as
a function into `Except String _`, where `Except.error` is a thrown
exception.  Logger output is modelled as a list of log lines, and calls
into the user's `onError` callback as a list of delivered error
messages.
-/

namespace Outray

/-- Protocol mode of the tunnel, from `ClientOptions.protocol`. -/
inductive Protocol
  | http
  | tcp
  | udp
deriving DecidableEq, Repr

/-- An inbound HTTP request handed to the HTTP bridge (types.ts
`IncomingRequest`).  The body is `Option String` since it is
`Buffer | null` in the source. -/
structure IncomingRequest where
  id : String
  method : String
  path : String
  headers : List (String × String)
  body : Option String
deriving DecidableEq, Repr

/-- A response produced by a handler or the proxy (types.ts
`IncomingResponse`).  `headers` and `body` are optional in the source. -/
structure IncomingResponse where
  statusCode : Nat
  headers : Option (List (String × String)) := none
  body : Option String := none
deriving DecidableEq, Repr

/-- Outbound frames the client serializes onto the control channel. -/
inductive OutFrame
  | openTunnel (apiKey : String) (protocol : Protocol) (remotePort : Nat)
  | response (requestId : String) (statusCode : Nat)
      (headers : List (String × String)) (body : String)
  | tcpData (connectionId : String) (data : String)
  | udpResponse (packetId : String) (data : String)
deriving DecidableEq, Repr

/-- The channel-relevant part of the client's mutable state: whether
`this.ws` is non-null and whether the `closed` flag is set. -/
structure ConnState where
  wsPresent : Bool
  closed : Bool
deriving DecidableEq, Repr

/-- The user-supplied callbacks of `ClientOptions`.  A callback that
throws is modelled as returning `Except.error`. -/
structure Callbacks where
  onOpen : Option (String → Except String Unit) := none
  onRequest : Option (IncomingRequest → Except String IncomingResponse) := none
  onError : Option (String → Except String Unit) := none

/-- `safeCallback`: runs a callback, catching any exception and logging
it (client.ts lines 395-401).  Returns the logger lines produced. -/
def safeCallback (r : Except String Unit) : List String :=
  match r with
  | Except.ok _ => []
  | Except.error e => ["Callback error: " ++ e]

/-- `safeOnError`: delivers an error to the user's `onError` callback,
if configured, through `safeCallback` (client.ts lines 406-410).
Returns the pair (messages delivered to the callback, logger lines). -/
def safeOnErrorRun (onErr : Option (String → Except String Unit)) (e : String) :
    List String × List String :=
  match onErr with
  | some f => ([e], safeCallback (f e))
  | none => ([], [])

/-- `sendResponse` (client.ts lines 349-371): rejects with
"Client is closed" when `!this.ws || this.closed`, otherwise serializes
a `response` frame with `headers ?? {}` and a string body
(`Buffer.toString()` / `body ?? ""`). -/
def sendResponse (st : ConnState) (id : String) (resp : IncomingResponse) :
    Except String OutFrame :=
  if st.wsPresent = false ∨ st.closed = true then
    Except.error "Client is closed"
  else
    Except.ok (OutFrame.response id resp.statusCode
      (resp.headers.getD []) (resp.body.getD ""))

/-- Outcome of the local HTTP call made by `proxyHTTP`: a response from
the upstream (whose status code may be absent, `?? 500` in the source),
a connection-level error, or the 30s timeout. -/
inductive ProxyOutcome
  | success (statusCode : Option Nat) (headers : List (String × String)) (body : String)
  | connError (msg : String)
  | timeout
deriving DecidableEq, Repr

/-- The `http.RequestOptions` object `proxyHTTP` builds for the local
call (client.ts lines 208-215). -/
structure RequestOptions where
  hostname : String
  port : Nat
  path : String
  method : String
  headers : List (String × String)
  timeoutMs : Nat
deriving DecidableEq, Repr

/-- The options `proxyHTTP` passes to `http.request`. -/
def proxyOptions (port : Nat) (req : IncomingRequest) : RequestOptions :=
  { hostname := "localhost"
    port := port
    path := req.path
    method := req.method
    headers := req.headers
    timeoutMs := 30000 }

/-- The request body `proxyHTTP` writes to the upstream call
(`proxyReq.write(req.body)` when the body is non-null). -/
def proxyWrittenBody (req : IncomingRequest) : Option String := req.body

/-- Result of `proxyHTTP`: the resolved response, plus whether the
upstream request was destroyed (`proxyReq.destroy()`, the abort on the
timeout path). -/
structure ProxyResult where
  response : IncomingResponse
  upstreamAborted : Bool
deriving DecidableEq, Repr

/-- `proxyHTTP` (client.ts lines 206-264): the promise only ever
resolves.  Upstream success resolves with `statusCode ?? 500`; a
connection error resolves with 502 and an explanatory body; the timeout
destroys the upstream request and resolves with 504. -/
def proxyHTTP (outcome : ProxyOutcome) : ProxyResult :=
  match outcome with
  | ProxyOutcome.success sc hs b =>
    { response := { statusCode := sc.getD 500, headers := some hs, body := some b }
      upstreamAborted := false }
  | ProxyOutcome.connError m =>
    { response := { statusCode := 502, body := some ("Proxy Error: " ++ m) }
      upstreamAborted := false }
  | ProxyOutcome.timeout =>
    { response := { statusCode := 504, body := some "Proxy Timeout" }
      upstreamAborted := true }

/-- Static configuration relevant to HTTP dispatch: the local target
port and the protocol mode. -/
structure Config where
  port : Nat
  protocol : Protocol
deriving DecidableEq, Repr

/-- What one run of `handleRequest` produced: outbound frames, logger
lines, error messages delivered to `onError`, and the (unchanged)
channel state. -/
structure RequestResult where
  frames : List OutFrame
  logs : List String
  delivered : List String
  state : ConnState
deriving DecidableEq, Repr

/-- `handleRequest` (client.ts lines 176-201).  Dispatch: the user
handler if configured, else the local proxy when `port > 0` and the
protocol is `http`, else a fixed 501.  The whole body is inside a
`try`; a thrown handler exception or a `sendResponse` rejection lands
in the `catch`, which logs and reports via `safeOnError` and sends
nothing. -/
def handleRequest (cfg : Config) (cb : Callbacks) (proxy : ProxyOutcome)
    (st : ConnState) (req : IncomingRequest) : RequestResult :=
  let attempt : Except String IncomingResponse :=
    match cb.onRequest with
    | some h => h req
    | none =>
      if 0 < cfg.port ∧ cfg.protocol = Protocol.http then
        Except.ok (proxyHTTP proxy).response
      else
        Except.ok { statusCode := 501, body := some "Not implemented" }
  match attempt with
  | Except.ok resp =>
    match sendResponse st req.id resp with
    | Except.ok f => { frames := [f], logs := [], delivered := [], state := st }
    | Except.error e =>
      let r := safeOnErrorRun cb.onError e
      { frames := []
        logs := ["Error handling request: " ++ e] ++ r.2
        delivered := r.1
        state := st }
  | Except.error e =>
    let r := safeOnErrorRun cb.onError e
    { frames := []
      logs := ["Error handling request: " ++ e] ++ r.2
      delivered := r.1
      state := st }

/-- Whether the user-supplied request handler is configured and throws
on this request. -/
def userHandlerThrew (cb : Callbacks) (req : IncomingRequest) : Bool :=
  match cb.onRequest with
  | some h =>
    match h req with
    | Except.ok _ => false
    | Except.error _ => true
  | none => false

/-- A parsed inbound control-channel message, as `handleMessage` sees
it.  `malformed` stands for a `JSON.parse` failure (the `catch` path);
`unknownKind` stands for a frame whose `type` string matches none of
the six cases of the `switch`. -/
inductive InMsg
  | malformed (err : String)
  | tunnelOpened (url : String)
  | errorMsg (message : String)
  | request (requestId : String) (method : String) (path : String)
      (headers : List (String × String)) (body : Option String)
  | tcpConnection (connectionId : String)
  | tcpData (connectionId : String) (data : String)
  | udpData (packetId : String) (data : String)
      (sourceAddress : String) (sourcePort : Nat)
  | unknownKind (kind : String)
deriving DecidableEq, Repr

/-- The `type` strings the `switch` in `handleMessage` recognizes. -/
def knownInboundTypes : List String :=
  ["tunnel_opened", "tcp_connection", "tcp_data", "udp_data", "request", "error"]

/-- Immediate effects of dispatching one inbound message: logger lines,
errors delivered to `onError`, asynchronous `handleRequest` invocations
spawned, local TCP sockets opened, writes to registered TCP sockets,
and UDP exchanges started.  No outbound frame is produced synchronously
by `handleMessage` itself. -/
structure HandleResult where
  logs : List String
  delivered : List String
  spawnedRequests : List IncomingRequest
  tcpOpens : List String
  tcpWrites : List (String × String)
  udpExchanges : List String
deriving DecidableEq, Repr

/-- The effect-free dispatch result. -/
def HandleResult.empty : HandleResult :=
  { logs := []
    delivered := []
    spawnedRequests := []
    tcpOpens := []
    tcpWrites := []
    udpExchanges := [] }

/-- Pointwise concatenation of dispatch results of consecutive frames. -/
def HandleResult.combine (a b : HandleResult) : HandleResult :=
  { logs := a.logs ++ b.logs
    delivered := a.delivered ++ b.delivered
    spawnedRequests := a.spawnedRequests ++ b.spawnedRequests
    tcpOpens := a.tcpOpens ++ b.tcpOpens
    tcpWrites := a.tcpWrites ++ b.tcpWrites
    udpExchanges := a.udpExchanges ++ b.udpExchanges }

/-- `handleMessage` (client.ts lines 130-171).  A parse failure is
caught and logged; `tunnel_opened` runs `onOpen` under `safeCallback`;
`error` goes to `safeOnError`; `request`, `tcp_connection`, `tcp_data`
and `udp_data` spawn the corresponding bridge work; a `type` outside
the `switch` falls through every case and does nothing. -/
def handleMessage (cb : Callbacks) (m : InMsg) : HandleResult :=
  match m with
  | InMsg.malformed e =>
    { HandleResult.empty with logs := ["Failed to parse message: " ++ e] }
  | InMsg.tunnelOpened url =>
    match cb.onOpen with
    | some f => { HandleResult.empty with logs := safeCallback (f url) }
    | none => HandleResult.empty
  | InMsg.errorMsg msg =>
    let r := safeOnErrorRun cb.onError msg
    { HandleResult.empty with logs := r.2, delivered := r.1 }
  | InMsg.request rid mth p hs b =>
    { HandleResult.empty with spawnedRequests := [⟨rid, mth, p, hs, b⟩] }
  | InMsg.tcpConnection cid =>
    { HandleResult.empty with tcpOpens := [cid] }
  | InMsg.tcpData cid d =>
    { HandleResult.empty with tcpWrites := [(cid, d)] }
  | InMsg.udpData pid _ _ _ =>
    { HandleResult.empty with udpExchanges := [pid] }
  | InMsg.unknownKind _ => HandleResult.empty

/-- Dispatching a sequence of inbound frames in order. -/
def handleMessages (cb : Callbacks) : List InMsg → HandleResult
  | [] => HandleResult.empty
  | m :: ms => HandleResult.combine (handleMessage cb m) (handleMessages cb ms)

/-- The guarded send used by the TCP bridge for local-socket data
(`if (this.ws && !this.closed) this.ws.send(...)`, client.ts
lines 281-283). -/
def tcpDataFrames (st : ConnState) (cid : String) (d : String) : List OutFrame :=
  if st.wsPresent && !st.closed then [OutFrame.tcpData cid d] else []

/-- The guarded send used by the UDP bridge for a local datagram
response (`if (this.ws && !this.closed) this.ws.send(...)`, client.ts
lines 322-324). -/
def udpResponseFrames (st : ConnState) (pid : String) (d : String) : List OutFrame :=
  if st.wsPresent && !st.closed then [OutFrame.udpResponse pid d] else []

/-- Events a pending UDP exchange can observe: a local datagram
response, a socket error, or the 5s timer firing. -/
inductive UDPEvent
  | message (data : String)
  | socketError
  | timerFired
deriving DecidableEq, Repr

/-- State of one UDP exchange: whether its local socket has been
closed.  A closed dgram socket delivers no further events, and the
`close` listener clears the timer, so every event is absorbed once the
socket is closed. -/
structure UDPState where
  socketClosed : Bool
deriving DecidableEq, Repr

/-- One event of the `handleUDPData` exchange (client.ts lines
311-344).  The first datagram response sends a `udp_response` frame
(under the channel guard) and closes the socket; a socket error or the
timeout closes the socket without sending.  Each event carries the
channel state at the moment it fires. -/
def udpStep (pid : String) (s : UDPState) (e : ConnState × UDPEvent) :
    UDPState × List OutFrame :=
  if s.socketClosed then (s, [])
  else
    match e.2 with
    | UDPEvent.message d => (⟨true⟩, udpResponseFrames e.1 pid d)
    | UDPEvent.socketError => (⟨true⟩, [])
    | UDPEvent.timerFired => (⟨true⟩, [])

/-- Runs a UDP exchange over a trace of events, collecting the
`udp_response` frames sent. -/
def udpRun (pid : String) (s : UDPState) : List (ConnState × UDPEvent) →
    UDPState × List OutFrame
  | [] => (s, [])
  | e :: es =>
    let r := udpStep pid s e
    let r2 := udpRun pid r.1 es
    (r2.1, r.2 ++ r2.2)

/-- WebSocket events observed by one `connectOnce` attempt. -/
inductive WSEvent
  | wsOpen
  | wsMessage (raw : String)
  | wsError
  | wsClose
deriving DecidableEq, Repr

/-- Settlement state of the promise returned by `connectOnce`. -/
inductive Settle
  | unsettled
  | resolved
  | rejected
deriving DecidableEq, Repr

/-- State of one `connectOnce` attempt: whether the `open` event has
fired (only then is the resolving `close` listener installed,
client.ts lines 90-111) and how the promise has settled. -/
structure COState where
  opened : Bool
  settle : Settle
deriving DecidableEq, Repr

/-- One WebSocket event of `connectOnce` (client.ts lines 81-125).
`error` rejects the promise; `close` resolves it only when the `open`
handler had installed the resolving listener; a promise settles at
most once, so a settled state absorbs later events. -/
def coStep (s : COState) (e : WSEvent) : COState :=
  match e with
  | WSEvent.wsOpen => { s with opened := true }
  | WSEvent.wsMessage _ => s
  | WSEvent.wsError =>
    if s.settle = Settle.unsettled then { s with settle := Settle.rejected } else s
  | WSEvent.wsClose =>
    if s.settle = Settle.unsettled ∧ s.opened = true then
      { s with settle := Settle.resolved }
    else s

/-- The settlement state of `connectOnce`'s promise after a trace of
WebSocket events. -/
def connectOnceRun (events : List WSEvent) : COState :=
  events.foldl coStep ⟨false, Settle.unsettled⟩

/-- Outcome of one iteration of the reconnect loop in `connect`:
`connectOnce` either resolved (success) or rejected (failure). -/
inductive AttemptOutcome
  | success
  | failure
deriving DecidableEq, Repr

/-- The backoff update of `connect` (client.ts lines 60-76): reset to
1000 ms after a successful attempt, `min(backoff * 2, 30000)` after a
failed one. -/
def nextBackoff (b : Nat) : AttemptOutcome → Nat
  | AttemptOutcome.success => 1000
  | AttemptOutcome.failure => min (b * 2) 30000

/-- The backoff variable after a sequence of attempt outcomes, starting
from `b` (initially 1000). -/
def backoffAfter : Nat → List AttemptOutcome → Nat
  | b, [] => b
  | b, o :: os => backoffAfter (nextBackoff b o) os

/-- The delays actually slept by the loop: on each failure the loop
sleeps the current backoff, then doubles it (capped); a success sleeps
nothing and resets. -/
def sleptDelays : Nat → List AttemptOutcome → List Nat
  | _, [] => []
  | _, AttemptOutcome.success :: os => sleptDelays 1000 os
  | b, AttemptOutcome.failure :: os =>
    b :: sleptDelays (nextBackoff b AttemptOutcome.failure) os

/-- The client state touched by `close`: the `closed` flag, the
WebSocket, and the TCP sub-channel registry (connection id paired with
a socket handle, modelled as a number). -/
structure ClientState where
  closed : Bool
  wsPresent : Bool
  tcpConnections : List (String × Nat)
deriving DecidableEq, Repr

/-- The channel-guard projection of the client state. -/
def ClientState.conn (s : ClientState) : ConnState :=
  { wsPresent := s.wsPresent, closed := s.closed }

/-- What `close` did: the resulting state, the socket handles it called
`destroy()` on, and whether it called `ws.close()`. -/
structure CloseResult where
  state : ClientState
  destroyedSockets : List Nat
  wsCloseCalled : Bool
deriving DecidableEq, Repr

/-- `close` (client.ts lines 376-390): sets `closed`, destroys every
registered TCP socket, clears the registry, closes the WebSocket and
nulls it out. -/
def closeClient (s : ClientState) : CloseResult :=
  { state := { closed := true, wsPresent := false, tcpConnections := [] }
    destroyedSockets := s.tcpConnections.map Prod.snd
    wsCloseCalled := s.wsPresent }

/-- The guard of the reconnect loop: `while (!this.closed)`. -/
def reconnectLoopContinues (s : ClientState) : Bool := !s.closed

/-! ## Theorems -/

/-- Claim C1: for every well-formed inbound `request` frame processed
by `handleRequest`, exactly one `response` frame carrying the same
request id is emitted (here: when the channel is live), unless the
user-supplied handler throws, in which case no response frame is
emitted for that request id. -/
theorem request_response_multiplicity (cfg : Config) (cb : Callbacks)
    (proxy : ProxyOutcome) (st : ConnState) (req : IncomingRequest)
    (hws : st.wsPresent = true) (hcl : st.closed = false) :
    (userHandlerThrew cb req = true → (handleRequest cfg cb proxy st req).frames = [])
    ∧ (userHandlerThrew cb req = false →
        ∃ sc hs b, (handleRequest cfg cb proxy st req).frames =
          [OutFrame.response req.id sc hs b]) := by
  have hsend : ∀ resp, sendResponse st req.id resp =
      Except.ok (OutFrame.response req.id resp.statusCode
        (resp.headers.getD []) (resp.body.getD "")) := by
    intro resp
    simp [sendResponse, hws, hcl]
  constructor
  · intro hthrew
    unfold userHandlerThrew at hthrew
    unfold handleRequest
    cases hcb : cb.onRequest with
    | none => rw [hcb] at hthrew; simp at hthrew
    | some h =>
      rw [hcb] at hthrew
      cases hh : h req with
      | ok r => simp [hh] at hthrew
      | error e => simp [hh]
  · intro hok
    unfold userHandlerThrew at hok
    unfold handleRequest
    cases hcb : cb.onRequest with
    | none =>
      by_cases hc : 0 < cfg.port ∧ cfg.protocol = Protocol.http
      · refine ⟨(proxyHTTP proxy).response.statusCode,
          (proxyHTTP proxy).response.headers.getD [],
          (proxyHTTP proxy).response.body.getD "", ?_⟩
        simp [hc, hsend]
      · refine ⟨501, [], "Not implemented", ?_⟩
        simp [hc, hsend]
    | some h =>
      rw [hcb] at hok
      cases hh : h req with
      | ok r =>
        refine ⟨r.statusCode, r.headers.getD [], r.body.getD "", ?_⟩
        simp [hh, hsend]
      | error e => simp [hh] at hok

/-- Witness for `request_response_multiplicity` at a concrete live
channel and default (proxy) configuration. -/
theorem request_response_multiplicity_witness :
    (ConnState.mk true false).wsPresent = true
    ∧ (ConnState.mk true false).closed = false
    ∧ ((userHandlerThrew ⟨none, none, none⟩ ⟨"r1", "GET", "/x", [], none⟩ = true →
          (handleRequest ⟨3000, Protocol.http⟩ ⟨none, none, none⟩
            (ProxyOutcome.connError "refused") ⟨true, false⟩
            ⟨"r1", "GET", "/x", [], none⟩).frames = [])
        ∧ (userHandlerThrew ⟨none, none, none⟩ ⟨"r1", "GET", "/x", [], none⟩ = false →
          ∃ sc hs b, (handleRequest ⟨3000, Protocol.http⟩ ⟨none, none, none⟩
            (ProxyOutcome.connError "refused") ⟨true, false⟩
            ⟨"r1", "GET", "/x", [], none⟩).frames =
              [OutFrame.response "r1" sc hs b])) :=
  ⟨rfl, rfl,
    request_response_multiplicity ⟨3000, Protocol.http⟩ ⟨none, none, none⟩
      (ProxyOutcome.connError "refused") ⟨true, false⟩
      ⟨"r1", "GET", "/x", [], none⟩ rfl rfl⟩

/-- Claim C6: an exception thrown by the user-supplied request handler
is caught, logged and reported via the error callback; the session
state is untouched and no response frame is sent for that request. -/
theorem handler_exception_isolated (cfg : Config) (cb : Callbacks)
    (proxy : ProxyOutcome) (st : ConnState) (req : IncomingRequest)
    (h : IncomingRequest → Except String IncomingResponse) (e : String)
    (hcb : cb.onRequest = some h) (hth : h req = Except.error e) :
    (handleRequest cfg cb proxy st req).frames = []
    ∧ (handleRequest cfg cb proxy st req).state = st
    ∧ "Error handling request: " ++ e ∈ (handleRequest cfg cb proxy st req).logs
    ∧ (∀ f, cb.onError = some f →
        (handleRequest cfg cb proxy st req).delivered = [e]) := by
  unfold handleRequest
  refine ⟨by simp [hcb, hth], by simp [hcb, hth], by simp [hcb, hth], ?_⟩
  intro f hf
  simp [hcb, hth, hf, safeOnErrorRun]

/-- Witness for `handler_exception_isolated` with a concrete throwing
handler and a configured error callback. -/
theorem handler_exception_isolated_witness :
    (Callbacks.mk none (some fun _ => Except.error "boom")
        (some fun _ => Except.ok ())).onRequest =
      some (fun _ => Except.error "boom")
    ∧ (fun (_ : IncomingRequest) => (Except.error "boom" : Except String IncomingResponse))
        ⟨"r1", "GET", "/x", [], none⟩ = Except.error "boom"
    ∧ ((handleRequest ⟨3000, Protocol.http⟩
          ⟨none, some fun _ => Except.error "boom", some fun _ => Except.ok ()⟩
          ProxyOutcome.timeout ⟨true, false⟩
          ⟨"r1", "GET", "/x", [], none⟩).frames = []
      ∧ (handleRequest ⟨3000, Protocol.http⟩
          ⟨none, some fun _ => Except.error "boom", some fun _ => Except.ok ()⟩
          ProxyOutcome.timeout ⟨true, false⟩
          ⟨"r1", "GET", "/x", [], none⟩).state = ⟨true, false⟩
      ∧ "Error handling request: " ++ "boom" ∈
          (handleRequest ⟨3000, Protocol.http⟩
            ⟨none, some fun _ => Except.error "boom", some fun _ => Except.ok ()⟩
            ProxyOutcome.timeout ⟨true, false⟩
            ⟨"r1", "GET", "/x", [], none⟩).logs
      ∧ (∀ f, (Callbacks.mk none (some fun _ => Except.error "boom")
            (some fun _ => Except.ok ())).onError = some f →
          (handleRequest ⟨3000, Protocol.http⟩
            ⟨none, some fun _ => Except.error "boom", some fun _ => Except.ok ()⟩
            ProxyOutcome.timeout ⟨true, false⟩
            ⟨"r1", "GET", "/x", [], none⟩).delivered = ["boom"])) :=
  ⟨rfl, rfl,
    handler_exception_isolated ⟨3000, Protocol.http⟩
      ⟨none, some fun _ => Except.error "boom", some fun _ => Except.ok ()⟩
      ProxyOutcome.timeout ⟨true, false⟩ ⟨"r1", "GET", "/x", [], none⟩
      (fun _ => Except.error "boom") "boom" rfl rfl⟩

/-- Claim C7: the local HTTP proxy forwards method, path, headers and
body to localhost on the configured port with a 30s timeout; an
upstream connection failure yields a 502 response with an explanatory
body, and the timeout aborts the upstream call and yields a 504 — and
those are the frames emitted when such a request is dispatched on a
live channel. -/
theorem proxy_error_mapping (port : Nat) (req : IncomingRequest) (m : String)
    (cb : Callbacks) (st : ConnState)
    (hp : 0 < port) (hcb : cb.onRequest = none)
    (hws : st.wsPresent = true) (hcl : st.closed = false) :
    proxyOptions port req =
      { hostname := "localhost", port := port, path := req.path,
        method := req.method, headers := req.headers, timeoutMs := 30000 }
    ∧ proxyWrittenBody req = req.body
    ∧ proxyHTTP (ProxyOutcome.connError m) =
      { response := { statusCode := 502, body := some ("Proxy Error: " ++ m) },
        upstreamAborted := false }
    ∧ proxyHTTP ProxyOutcome.timeout =
      { response := { statusCode := 504, body := some "Proxy Timeout" },
        upstreamAborted := true }
    ∧ (handleRequest ⟨port, Protocol.http⟩ cb (ProxyOutcome.connError m) st req).frames =
      [OutFrame.response req.id 502 [] ("Proxy Error: " ++ m)]
    ∧ (handleRequest ⟨port, Protocol.http⟩ cb ProxyOutcome.timeout st req).frames =
      [OutFrame.response req.id 504 [] "Proxy Timeout"] := by
  refine ⟨rfl, rfl, rfl, rfl, ?_, ?_⟩ <;>
    simp [handleRequest, hcb, hp, proxyHTTP, sendResponse, hws, hcl]

/-- Witness for `proxy_error_mapping`: port 3000, unreachable upstream,
live channel. -/
theorem proxy_error_mapping_witness :
    0 < 3000
    ∧ (Callbacks.mk none none none).onRequest = none
    ∧ (ConnState.mk true false).wsPresent = true
    ∧ (ConnState.mk true false).closed = false
    ∧ (proxyOptions 3000 ⟨"r1", "GET", "/x", [("host", "h")], some "b"⟩ =
        { hostname := "localhost", port := 3000, path := "/x",
          method := "GET", headers := [("host", "h")], timeoutMs := 30000 }
      ∧ proxyWrittenBody ⟨"r1", "GET", "/x", [("host", "h")], some "b"⟩ = some "b"
      ∧ proxyHTTP (ProxyOutcome.connError "ECONNREFUSED") =
        { response :=
            { statusCode := 502, body := some ("Proxy Error: " ++ "ECONNREFUSED") },
          upstreamAborted := false }
      ∧ proxyHTTP ProxyOutcome.timeout =
        { response := { statusCode := 504, body := some "Proxy Timeout" },
          upstreamAborted := true }
      ∧ (handleRequest ⟨3000, Protocol.http⟩ ⟨none, none, none⟩
          (ProxyOutcome.connError "ECONNREFUSED") ⟨true, false⟩
          ⟨"r1", "GET", "/x", [("host", "h")], some "b"⟩).frames =
        [OutFrame.response "r1" 502 [] ("Proxy Error: " ++ "ECONNREFUSED")]
      ∧ (handleRequest ⟨3000, Protocol.http⟩ ⟨none, none, none⟩
          ProxyOutcome.timeout ⟨true, false⟩
          ⟨"r1", "GET", "/x", [("host", "h")], some "b"⟩).frames =
        [OutFrame.response "r1" 504 [] "Proxy Timeout"]) :=
  ⟨by decide, rfl, rfl, rfl,
    proxy_error_mapping 3000 ⟨"r1", "GET", "/x", [("host", "h")], some "b"⟩
      "ECONNREFUSED" ⟨none, none, none⟩ ⟨true, false⟩
      (by decide) rfl rfl rfl⟩

/-- Claim C8: HTTP dispatch priority — a configured user handler wins;
otherwise, with a positive target port and protocol mode `http`, the
request is proxied locally; otherwise a fixed 501 response is
produced. -/
theorem dispatch_priority (cfg : Config) (cb : Callbacks) (proxy : ProxyOutcome)
    (st : ConnState) (req : IncomingRequest)
    (hws : st.wsPresent = true) (hcl : st.closed = false) :
    (∀ h resp, cb.onRequest = some h → h req = Except.ok resp →
      (handleRequest cfg cb proxy st req).frames =
        [OutFrame.response req.id resp.statusCode
          (resp.headers.getD []) (resp.body.getD "")])
    ∧ (cb.onRequest = none → 0 < cfg.port → cfg.protocol = Protocol.http →
      (handleRequest cfg cb proxy st req).frames =
        [OutFrame.response req.id (proxyHTTP proxy).response.statusCode
          ((proxyHTTP proxy).response.headers.getD [])
          ((proxyHTTP proxy).response.body.getD "")])
    ∧ (cb.onRequest = none → ¬(0 < cfg.port ∧ cfg.protocol = Protocol.http) →
      (handleRequest cfg cb proxy st req).frames =
        [OutFrame.response req.id 501 [] "Not implemented"]) := by
  have hsend : ∀ resp, sendResponse st req.id resp =
      Except.ok (OutFrame.response req.id resp.statusCode
        (resp.headers.getD []) (resp.body.getD "")) := by
    intro resp
    simp [sendResponse, hws, hcl]
  refine ⟨?_, ?_, ?_⟩
  · intro h resp hcb hh
    simp [handleRequest, hcb, hh, hsend]
  · intro hcb hp hproto
    simp [handleRequest, hcb, hp, hproto, hsend]
  · intro hcb hc
    simp [handleRequest, hcb, hc, hsend]

/-- Witness for `dispatch_priority` on a live channel with a configured
handler (whose result must be the one sent). -/
theorem dispatch_priority_witness :
    (ConnState.mk true false).wsPresent = true
    ∧ (ConnState.mk true false).closed = false
    ∧ ((∀ h resp,
        (Callbacks.mk none
            (some fun _ => Except.ok { statusCode := 200, body := some "hi" })
            none).onRequest = some h →
        h ⟨"r9", "POST", "/y", [], none⟩ = Except.ok resp →
        (handleRequest ⟨0, Protocol.tcp⟩
          ⟨none, some fun _ => Except.ok { statusCode := 200, body := some "hi" }, none⟩
          ProxyOutcome.timeout ⟨true, false⟩ ⟨"r9", "POST", "/y", [], none⟩).frames =
          [OutFrame.response "r9" resp.statusCode
            (resp.headers.getD []) (resp.body.getD "")])
      ∧ ((Callbacks.mk none
            (some fun _ => Except.ok { statusCode := 200, body := some "hi" })
            none).onRequest = none →
        0 < (0 : Nat) → Protocol.tcp = Protocol.http →
        (handleRequest ⟨0, Protocol.tcp⟩
          ⟨none, some fun _ => Except.ok { statusCode := 200, body := some "hi" }, none⟩
          ProxyOutcome.timeout ⟨true, false⟩ ⟨"r9", "POST", "/y", [], none⟩).frames =
          [OutFrame.response "r9" (proxyHTTP ProxyOutcome.timeout).response.statusCode
            ((proxyHTTP ProxyOutcome.timeout).response.headers.getD [])
            ((proxyHTTP ProxyOutcome.timeout).response.body.getD "")])
      ∧ ((Callbacks.mk none
            (some fun _ => Except.ok { statusCode := 200, body := some "hi" })
            none).onRequest = none →
        ¬(0 < (0 : Nat) ∧ Protocol.tcp = Protocol.http) →
        (handleRequest ⟨0, Protocol.tcp⟩
          ⟨none, some fun _ => Except.ok { statusCode := 200, body := some "hi" }, none⟩
          ProxyOutcome.timeout ⟨true, false⟩ ⟨"r9", "POST", "/y", [], none⟩).frames =
          [OutFrame.response "r9" 501 [] "Not implemented"])) :=
  ⟨rfl, rfl,
    dispatch_priority ⟨0, Protocol.tcp⟩
      ⟨none, some fun _ => Except.ok { statusCode := 200, body := some "hi" }, none⟩
      ProxyOutcome.timeout ⟨true, false⟩ ⟨"r9", "POST", "/y", [], none⟩ rfl rfl⟩

/-- Combining the effect-free dispatch result on the left is the
identity. -/
theorem HandleResult.empty_combine (r : HandleResult) :
    HandleResult.combine HandleResult.empty r = r := by
  cases r
  simp [HandleResult.combine, HandleResult.empty]

/-- Claim C9 counterexample: a frame whose kind discriminator "bogus"
matches no case of the dispatch switch is dropped with no log line at
all — the code does not log unknown kinds, only parse failures. -/
theorem unknown_kind_not_logged :
    "bogus" ∉ knownInboundTypes
    ∧ (handleMessage ⟨none, none, none⟩ (InMsg.unknownKind "bogus")).logs = [] := by
  constructor
  · decide
  · rfl

/-- Claim C9 (amended): a malformed frame (JSON parse failure) is
logged and dropped; a frame with an unknown kind discriminator is
dropped silently, without a log line; in both cases no outbound work
is spawned and the session processes subsequent frames unchanged. -/
theorem malformed_unknown_dropped (cb : Callbacks) (e k : String)
    (ms : List InMsg) (_hk : k ∉ knownInboundTypes) :
    handleMessage cb (InMsg.malformed e) =
      { HandleResult.empty with logs := ["Failed to parse message: " ++ e] }
    ∧ handleMessage cb (InMsg.unknownKind k) = HandleResult.empty
    ∧ handleMessages cb (InMsg.unknownKind k :: ms) = handleMessages cb ms
    ∧ (handleMessages cb (InMsg.malformed e :: ms)).spawnedRequests =
        (handleMessages cb ms).spawnedRequests
    ∧ (handleMessages cb (InMsg.malformed e :: ms)).tcpOpens =
        (handleMessages cb ms).tcpOpens
    ∧ (handleMessages cb (InMsg.malformed e :: ms)).tcpWrites =
        (handleMessages cb ms).tcpWrites
    ∧ (handleMessages cb (InMsg.malformed e :: ms)).udpExchanges =
        (handleMessages cb ms).udpExchanges
    ∧ (handleMessages cb (InMsg.malformed e :: ms)).delivered =
        (handleMessages cb ms).delivered
    ∧ (handleMessages cb (InMsg.malformed e :: ms)).logs =
        ("Failed to parse message: " ++ e) :: (handleMessages cb ms).logs := by
  refine ⟨rfl, rfl, ?_, ?_, ?_, ?_, ?_, ?_, ?_⟩ <;>
    simp [handleMessages, handleMessage, HandleResult.combine,
      HandleResult.empty, HandleResult.empty_combine]

/-- Witness for `malformed_unknown_dropped` at a parse error and the
unknown kind "bogus". -/
theorem malformed_unknown_dropped_witness :
    "bogus" ∉ knownInboundTypes
    ∧ (handleMessage ⟨none, none, none⟩ (InMsg.malformed "SyntaxError") =
        { HandleResult.empty with logs := ["Failed to parse message: " ++ "SyntaxError"] }
      ∧ handleMessage ⟨none, none, none⟩ (InMsg.unknownKind "bogus") = HandleResult.empty
      ∧ handleMessages ⟨none, none, none⟩ (InMsg.unknownKind "bogus" :: []) =
          handleMessages ⟨none, none, none⟩ []
      ∧ (handleMessages ⟨none, none, none⟩ (InMsg.malformed "SyntaxError" :: [])).spawnedRequests =
          (handleMessages ⟨none, none, none⟩ []).spawnedRequests
      ∧ (handleMessages ⟨none, none, none⟩ (InMsg.malformed "SyntaxError" :: [])).tcpOpens =
          (handleMessages ⟨none, none, none⟩ []).tcpOpens
      ∧ (handleMessages ⟨none, none, none⟩ (InMsg.malformed "SyntaxError" :: [])).tcpWrites =
          (handleMessages ⟨none, none, none⟩ []).tcpWrites
      ∧ (handleMessages ⟨none, none, none⟩ (InMsg.malformed "SyntaxError" :: [])).udpExchanges =
          (handleMessages ⟨none, none, none⟩ []).udpExchanges
      ∧ (handleMessages ⟨none, none, none⟩ (InMsg.malformed "SyntaxError" :: [])).delivered =
          (handleMessages ⟨none, none, none⟩ []).delivered
      ∧ (handleMessages ⟨none, none, none⟩ (InMsg.malformed "SyntaxError" :: [])).logs =
          ("Failed to parse message: " ++ "SyntaxError") ::
            (handleMessages ⟨none, none, none⟩ []).logs) :=
  ⟨by decide,
    malformed_unknown_dropped ⟨none, none, none⟩ "SyntaxError" "bogus" [] (by decide)⟩

/-- Claim C10: an exception thrown by a user-supplied `onOpen` or
`onError` callback is caught inside the client and logged; dispatch
returns normally and later frames are processed unchanged, so a
throwing callback cannot terminate the session. -/
theorem callback_exception_contained (cb : Callbacks)
    (f g : String → Except String Unit) (url errMsg e1 e2 : String)
    (ms : List InMsg)
    (hopen : cb.onOpen = some f) (hf : f url = Except.error e1)
    (herr : cb.onError = some g) (hg : g errMsg = Except.error e2) :
    safeCallback (f url) = ["Callback error: " ++ e1]
    ∧ handleMessage cb (InMsg.tunnelOpened url) =
      { HandleResult.empty with logs := ["Callback error: " ++ e1] }
    ∧ safeOnErrorRun cb.onError errMsg = ([errMsg], ["Callback error: " ++ e2])
    ∧ handleMessage cb (InMsg.errorMsg errMsg) =
      { HandleResult.empty with
          logs := ["Callback error: " ++ e2], delivered := [errMsg] }
    ∧ handleMessages cb (InMsg.tunnelOpened url :: ms) =
      HandleResult.combine
        { HandleResult.empty with logs := ["Callback error: " ++ e1] }
        (handleMessages cb ms) := by
  refine ⟨?_, ?_, ?_, ?_, ?_⟩ <;>
    simp [safeCallback, hf, handleMessage, hopen, safeOnErrorRun, herr, hg,
      handleMessages, HandleResult.empty]

/-- Witness for `callback_exception_contained` with concrete throwing
`onOpen` and `onError` callbacks. -/
theorem callback_exception_contained_witness :
    (Callbacks.mk (some fun _ => Except.error "boom") none
        (some fun _ => Except.error "crash")).onOpen =
      some (fun _ => Except.error "boom")
    ∧ (fun (_ : String) => (Except.error "boom" : Except String Unit)) "https://t" =
        Except.error "boom"
    ∧ (Callbacks.mk (some fun _ => Except.error "boom") none
        (some fun _ => Except.error "crash")).onError =
      some (fun _ => Except.error "crash")
    ∧ (fun (_ : String) => (Except.error "crash" : Except String Unit)) "relay refused" =
        Except.error "crash"
    ∧ (safeCallback ((fun (_ : String) =>
          (Except.error "boom" : Except String Unit)) "https://t") =
        ["Callback error: " ++ "boom"]
      ∧ handleMessage
          ⟨some fun _ => Except.error "boom", none, some fun _ => Except.error "crash"⟩
          (InMsg.tunnelOpened "https://t") =
        { HandleResult.empty with logs := ["Callback error: " ++ "boom"] }
      ∧ safeOnErrorRun
          (Callbacks.mk (some fun _ => Except.error "boom") none
            (some fun _ => Except.error "crash")).onError "relay refused" =
        (["relay refused"], ["Callback error: " ++ "crash"])
      ∧ handleMessage
          ⟨some fun _ => Except.error "boom", none, some fun _ => Except.error "crash"⟩
          (InMsg.errorMsg "relay refused") =
        { HandleResult.empty with
            logs := ["Callback error: " ++ "crash"], delivered := ["relay refused"] }
      ∧ handleMessages
          ⟨some fun _ => Except.error "boom", none, some fun _ => Except.error "crash"⟩
          (InMsg.tunnelOpened "https://t" :: [InMsg.tcpConnection "c1"]) =
        HandleResult.combine
          { HandleResult.empty with logs := ["Callback error: " ++ "boom"] }
          (handleMessages
            ⟨some fun _ => Except.error "boom", none, some fun _ => Except.error "crash"⟩
            [InMsg.tcpConnection "c1"])) :=
  ⟨rfl, rfl, rfl, rfl,
    callback_exception_contained
      ⟨some fun _ => Except.error "boom", none, some fun _ => Except.error "crash"⟩
      (fun _ => Except.error "boom") (fun _ => Except.error "crash")
      "https://t" "relay refused" "boom" "crash" [InMsg.tcpConnection "c1"]
      rfl rfl rfl rfl⟩

/-- Once the UDP exchange's socket is closed, no event is delivered
and no frame is ever sent (`close` also clears the timeout timer). -/
theorem udpRun_closed (pid : String) (events : List (ConnState × UDPEvent)) :
    udpRun pid ⟨true⟩ events = (⟨true⟩, []) := by
  induction events with
  | nil => rfl
  | cons e es ih => simp [udpRun, udpStep, ih]

/-- Every first event of a UDP exchange closes the local socket. -/
theorem udpStep_closes (pid : String) (e : ConnState × UDPEvent) :
    (udpStep pid ⟨false⟩ e).1 = ⟨true⟩ := by
  obtain ⟨st, ev⟩ := e
  cases ev <;> simp [udpStep]

/-- The frames of a whole UDP exchange are exactly the frames of its
first event. -/
theorem udpRun_frames (pid : String) (e : ConnState × UDPEvent)
    (es : List (ConnState × UDPEvent)) :
    (udpRun pid ⟨false⟩ (e :: es)).2 = (udpStep pid ⟨false⟩ e).2 := by
  have h : udpRun pid ⟨false⟩ (e :: es) =
      ((udpRun pid (udpStep pid ⟨false⟩ e).1 es).1,
        (udpStep pid ⟨false⟩ e).2 ++ (udpRun pid (udpStep pid ⟨false⟩ e).1 es).2) := rfl
  rw [h, udpStep_closes, udpRun_closed]
  simp

/-- Claim C2: per inbound `udp_data` packet, at most one `udp_response`
frame with that packet id is ever sent: the first local datagram
response on a live channel yields exactly one response and closes the
socket; the timeout (or a socket error) occurring first closes the
socket without any frame; afterwards nothing more is ever sent. -/
theorem udp_at_most_one_response (pid : String)
    (events : List (ConnState × UDPEvent)) :
    (udpRun pid ⟨false⟩ events).2.length ≤ 1
    ∧ (∀ fr ∈ (udpRun pid ⟨false⟩ events).2, ∃ d, fr = OutFrame.udpResponse pid d)
    ∧ (∀ d es, udpRun pid ⟨false⟩ ((⟨true, false⟩, UDPEvent.message d) :: es) =
        (⟨true⟩, [OutFrame.udpResponse pid d]))
    ∧ (∀ st es, udpRun pid ⟨false⟩ ((st, UDPEvent.timerFired) :: es) = (⟨true⟩, []))
    ∧ (∀ st es, udpRun pid ⟨false⟩ ((st, UDPEvent.socketError) :: es) = (⟨true⟩, [])) := by
  have hstep : ∀ e : ConnState × UDPEvent,
      (udpStep pid ⟨false⟩ e).2 = [] ∨
        ∃ d, (udpStep pid ⟨false⟩ e).2 = [OutFrame.udpResponse pid d] := by
    intro e
    obtain ⟨st, ev⟩ := e
    cases ev with
    | message d =>
      by_cases hg : st.wsPresent && !st.closed
      · exact Or.inr ⟨d, by simp [udpStep, udpResponseFrames, hg]⟩
      · exact Or.inl (by simp [udpStep, udpResponseFrames, hg])
    | socketError => exact Or.inl rfl
    | timerFired => exact Or.inl rfl
  refine ⟨?_, ?_, ?_, ?_, ?_⟩
  · cases events with
    | nil => simp [udpRun]
    | cons e es =>
      rw [udpRun_frames]
      rcases hstep e with h | ⟨d, h⟩ <;> simp [h]
  · intro fr hfr
    cases events with
    | nil => simp [udpRun] at hfr
    | cons e es =>
      rw [udpRun_frames] at hfr
      rcases hstep e with h | ⟨d, h⟩
      · rw [h] at hfr; simp at hfr
      · rw [h] at hfr
        simp at hfr
        exact ⟨d, hfr⟩
  · intro d es
    have h1 : udpRun pid ⟨false⟩ ((⟨true, false⟩, UDPEvent.message d) :: es) =
        ((udpRun pid ⟨true⟩ es).1,
          udpResponseFrames ⟨true, false⟩ pid d ++ (udpRun pid ⟨true⟩ es).2) := rfl
    rw [h1, udpRun_closed]
    simp [udpResponseFrames]
  · intro st es
    have h1 : udpRun pid ⟨false⟩ ((st, UDPEvent.timerFired) :: es) =
        ((udpRun pid ⟨true⟩ es).1, [] ++ (udpRun pid ⟨true⟩ es).2) := rfl
    rw [h1, udpRun_closed]
    rfl
  · intro st es
    have h1 : udpRun pid ⟨false⟩ ((st, UDPEvent.socketError) :: es) =
        ((udpRun pid ⟨true⟩ es).1, [] ++ (udpRun pid ⟨true⟩ es).2) := rfl
    rw [h1, udpRun_closed]
    rfl

/-- Witness for `udp_at_most_one_response`: one exchange that receives
a datagram response on a live channel and whose timer fires later. -/
theorem udp_at_most_one_response_witness :
    (udpRun "p1" ⟨false⟩ [(⟨true, false⟩, UDPEvent.message "pong"),
        (⟨true, false⟩, UDPEvent.timerFired)]).2.length ≤ 1
    ∧ (∀ fr ∈ (udpRun "p1" ⟨false⟩ [(⟨true, false⟩, UDPEvent.message "pong"),
          (⟨true, false⟩, UDPEvent.timerFired)]).2,
        ∃ d, fr = OutFrame.udpResponse "p1" d)
    ∧ (∀ d es, udpRun "p1" ⟨false⟩ ((⟨true, false⟩, UDPEvent.message d) :: es) =
        (⟨true⟩, [OutFrame.udpResponse "p1" d]))
    ∧ (∀ st es, udpRun "p1" ⟨false⟩ ((st, UDPEvent.timerFired) :: es) = (⟨true⟩, []))
    ∧ (∀ st es, udpRun "p1" ⟨false⟩ ((st, UDPEvent.socketError) :: es) = (⟨true⟩, [])) :=
  udp_at_most_one_response "p1" [(⟨true, false⟩, UDPEvent.message "pong"),
    (⟨true, false⟩, UDPEvent.timerFired)]

/-- The backoff variable stays within [1000 ms, 30000 ms] along any
sequence of attempt outcomes. -/
theorem backoff_bounds (os : List AttemptOutcome) :
    ∀ b, 1000 ≤ b → b ≤ 30000 →
      1000 ≤ backoffAfter b os ∧ backoffAfter b os ≤ 30000 := by
  induction os with
  | nil => intro b h1 h2; exact ⟨h1, h2⟩
  | cons o os ih =>
    intro b h1 h2
    cases o with
    | success =>
      simpa [backoffAfter, nextBackoff] using ih 1000 le_rfl (by omega)
    | failure =>
      simpa [backoffAfter, nextBackoff] using
        ih (min (b * 2) 30000) (by omega) (by omega)

/-- Across a run of consecutive failed attempts the slept delays are
monotonically non-decreasing. -/
theorem slept_chain (os : List AttemptOutcome) :
    ∀ b, b ≤ 30000 → (∀ o ∈ os, o = AttemptOutcome.failure) →
      List.Chain' (· ≤ ·) (sleptDelays b os) := by
  induction os with
  | nil => intro b _ _; simp [sleptDelays]
  | cons o os ih =>
    intro b hb hall
    have ho : o = AttemptOutcome.failure := hall o (List.mem_cons_self _ _)
    subst ho
    have hos : ∀ o ∈ os, o = AttemptOutcome.failure :=
      fun o h => hall o (List.mem_cons_of_mem _ h)
    cases os with
    | nil => simp [sleptDelays]
    | cons o2 os2 =>
      have ho2 : o2 = AttemptOutcome.failure := hos o2 (List.mem_cons_self _ _)
      subst ho2
      have hchain := ih (min (b * 2) 30000) (by omega) hos
      simp only [sleptDelays, nextBackoff] at hchain ⊢
      exact List.chain'_cons.mpr ⟨by omega, hchain⟩

/-- `backoffAfter` distributes over list append. -/
theorem backoffAfter_append (l l' : List AttemptOutcome) :
    ∀ b, backoffAfter b (l ++ l') = backoffAfter (backoffAfter b l) l' := by
  induction l with
  | nil => intro b; rfl
  | cons o os ih => intro b; simp [backoffAfter, ih]

/-- Claim C3: the reconnect backoff starts at the 1s floor, stays in
[1s, 30s] along any history, is monotonically non-decreasing across
consecutive failed attempts, doubles after each failure capped at 30s,
and resets to the floor after any successful attempt. -/
theorem reconnect_backoff_policy (pre fails : List AttemptOutcome)
    (hf : ∀ o ∈ fails, o = AttemptOutcome.failure) :
    (∀ os, sleptDelays 1000 (AttemptOutcome.failure :: os) =
      1000 :: sleptDelays 2000 os)
    ∧ 1000 ≤ backoffAfter 1000 pre ∧ backoffAfter 1000 pre ≤ 30000
    ∧ List.Chain' (· ≤ ·) (sleptDelays (backoffAfter 1000 pre) fails)
    ∧ (∀ b, nextBackoff b AttemptOutcome.failure = min (b * 2) 30000)
    ∧ (∀ b, nextBackoff b AttemptOutcome.success = 1000)
    ∧ backoffAfter 1000 (pre ++ [AttemptOutcome.success]) = 1000 := by
  obtain ⟨h1, h2⟩ := backoff_bounds pre 1000 le_rfl (by omega)
  refine ⟨?_, h1, h2, slept_chain fails _ h2 hf, fun b => rfl, fun b => rfl, ?_⟩
  · intro os
    have hm : min (1000 * 2) 30000 = 2000 := by omega
    simp [sleptDelays, nextBackoff, hm]
  · simp [backoffAfter_append, backoffAfter, nextBackoff]

/-- Witness for `reconnect_backoff_policy`: a mixed history followed by
three consecutive failures. -/
theorem reconnect_backoff_policy_witness :
    (∀ o ∈ [AttemptOutcome.failure, AttemptOutcome.failure, AttemptOutcome.failure],
      o = AttemptOutcome.failure)
    ∧ ((∀ os, sleptDelays 1000 (AttemptOutcome.failure :: os) =
        1000 :: sleptDelays 2000 os)
      ∧ 1000 ≤ backoffAfter 1000
          [AttemptOutcome.failure, AttemptOutcome.success, AttemptOutcome.failure]
      ∧ backoffAfter 1000
          [AttemptOutcome.failure, AttemptOutcome.success, AttemptOutcome.failure] ≤ 30000
      ∧ List.Chain' (· ≤ ·) (sleptDelays
          (backoffAfter 1000
            [AttemptOutcome.failure, AttemptOutcome.success, AttemptOutcome.failure])
          [AttemptOutcome.failure, AttemptOutcome.failure, AttemptOutcome.failure])
      ∧ (∀ b, nextBackoff b AttemptOutcome.failure = min (b * 2) 30000)
      ∧ (∀ b, nextBackoff b AttemptOutcome.success = 1000)
      ∧ backoffAfter 1000
          ([AttemptOutcome.failure, AttemptOutcome.success, AttemptOutcome.failure] ++
            [AttemptOutcome.success]) = 1000) :=
  ⟨by decide,
    reconnect_backoff_policy
      [AttemptOutcome.failure, AttemptOutcome.success, AttemptOutcome.failure]
      [AttemptOutcome.failure, AttemptOutcome.failure, AttemptOutcome.failure]
      (by decide)⟩

/-- Claim C4 (code bug): at a concrete state with a live channel and
the sub-channel ("c1", socket 7) registered, `close()` does establish
most of the claim — closed flag set, registered socket destroyed,
registry cleared, every guarded send dead, `sendResponse` rejecting,
and the reconnect loop guard failing — but the claim's "no new local
sockets are opened" conjunct is not enforced by the code: the inbound
dispatcher consults no closed flag (`handleMessage` takes no channel
state at all, mirroring client.ts lines 130-171 and 269-295 which
check neither `this.closed` nor `this.ws`), so a `tcp_connection`
frame delivered after `close()` returns — possible while the WebSocket
closing handshake drains buffered message events — still opens a new
local socket for that sub-channel id, against the spec's requirement
that `close()` synchronously stop accepting new work. -/
theorem close_dispatch_gap :
    (closeClient ⟨false, true, [("c1", 7)]⟩).state.closed = true
    ∧ (closeClient ⟨false, true, [("c1", 7)]⟩).state.wsPresent = false
    ∧ (closeClient ⟨false, true, [("c1", 7)]⟩).state.tcpConnections = []
    ∧ (closeClient ⟨false, true, [("c1", 7)]⟩).destroyedSockets = [7]
    ∧ (closeClient ⟨false, true, [("c1", 7)]⟩).wsCloseCalled = true
    ∧ reconnectLoopContinues (closeClient ⟨false, true, [("c1", 7)]⟩).state = false
    ∧ (∀ cid d, tcpDataFrames
        (closeClient ⟨false, true, [("c1", 7)]⟩).state.conn cid d = [])
    ∧ (∀ pid d, udpResponseFrames
        (closeClient ⟨false, true, [("c1", 7)]⟩).state.conn pid d = [])
    ∧ (∀ id resp, sendResponse
        (closeClient ⟨false, true, [("c1", 7)]⟩).state.conn id resp =
        Except.error "Client is closed")
    ∧ (handleMessage ⟨none, none, none⟩ (InMsg.tcpConnection "c1")).tcpOpens = ["c1"]
    ∧ (∀ cb : Callbacks, ∀ cid,
        (handleMessage cb (InMsg.tcpConnection cid)).tcpOpens = [cid]) := by
  refine ⟨rfl, rfl, rfl, rfl, rfl, rfl, ?_, ?_, ?_, rfl, fun cb cid => rfl⟩ <;>
    intro a b <;>
    simp [closeClient, ClientState.conn, tcpDataFrames, udpResponseFrames,
      sendResponse, reconnectLoopContinues]

/-- Claim C5 counterexample: on a connection that fails with an error
event and then closes, the `connectOnce` promise is rejected at the
error — it does not resolve when the channel closes, so the lifecycle
promise does not resolve on channel close "regardless of cause". -/
theorem lifecycle_error_path_cex :
    (connectOnceRun [WSEvent.wsError, WSEvent.wsClose]).settle = Settle.rejected
    ∧ (connectOnceRun [WSEvent.wsError, WSEvent.wsClose]).settle ≠ Settle.resolved
    ∧ (connectOnceRun [WSEvent.wsClose]).settle = Settle.unsettled := by
  refine ⟨rfl, ?_, rfl⟩
  intro h
  simp [connectOnceRun, coStep] at h

/-- Appending one event to a `connectOnce` trace steps the state
once. -/
theorem connectOnceRun_append (pre : List WSEvent) (e : WSEvent) :
    connectOnceRun (pre ++ [e]) = coStep (connectOnceRun pre) e := by
  simp [connectOnceRun, List.foldl_append]

/-- Claim C5 (amended): the `connectOnce` lifecycle promise settles at
most once; it resolves at a channel-close event provided the channel
had opened and the promise is still unsettled; an error event rejects
the still-unsettled promise instead; and a close without a prior open
leaves the promise unsettled. -/
theorem lifecycle_settlement (pre : List WSEvent) :
    ((connectOnceRun pre).settle = Settle.unsettled →
      (connectOnceRun pre).opened = true →
      (connectOnceRun (pre ++ [WSEvent.wsClose])).settle = Settle.resolved)
    ∧ ((connectOnceRun pre).settle = Settle.unsettled →
      (connectOnceRun (pre ++ [WSEvent.wsError])).settle = Settle.rejected)
    ∧ ((connectOnceRun pre).settle = Settle.unsettled →
      (connectOnceRun pre).opened = false →
      (connectOnceRun (pre ++ [WSEvent.wsClose])).settle = Settle.unsettled)
    ∧ (∀ e, (connectOnceRun pre).settle ≠ Settle.unsettled →
      (connectOnceRun (pre ++ [e])).settle = (connectOnceRun pre).settle) := by
  refine ⟨?_, ?_, ?_, ?_⟩
  · intro h1 h2
    rw [connectOnceRun_append]
    simp [coStep, h1, h2]
  · intro h1
    rw [connectOnceRun_append]
    simp [coStep, h1]
  · intro h1 h2
    rw [connectOnceRun_append]
    simp [coStep, h1, h2]
  · intro e h1
    rw [connectOnceRun_append]
    cases e with
    | wsOpen => rfl
    | wsMessage raw => rfl
    | wsError => simp [coStep, h1]
    | wsClose => simp [coStep, h1]

/-- Witness for `lifecycle_settlement` after a trace consisting of one
successful open. -/
theorem lifecycle_settlement_witness :
    ((connectOnceRun [WSEvent.wsOpen]).settle = Settle.unsettled →
      (connectOnceRun [WSEvent.wsOpen]).opened = true →
      (connectOnceRun ([WSEvent.wsOpen] ++ [WSEvent.wsClose])).settle = Settle.resolved)
    ∧ ((connectOnceRun [WSEvent.wsOpen]).settle = Settle.unsettled →
      (connectOnceRun ([WSEvent.wsOpen] ++ [WSEvent.wsError])).settle = Settle.rejected)
    ∧ ((connectOnceRun [WSEvent.wsOpen]).settle = Settle.unsettled →
      (connectOnceRun [WSEvent.wsOpen]).opened = false →
      (connectOnceRun ([WSEvent.wsOpen] ++ [WSEvent.wsClose])).settle = Settle.unsettled)
    ∧ (∀ e, (connectOnceRun [WSEvent.wsOpen]).settle ≠ Settle.unsettled →
      (connectOnceRun ([WSEvent.wsOpen] ++ [e])).settle =
        (connectOnceRun [WSEvent.wsOpen]).settle) :=
  lifecycle_settlement [WSEvent.wsOpen]

end Outray
